import Mathlib

/-!
Verification development for the SSH control service
(`src/ssh_control_mcp/server.py` and its HTTP twin
`src/ssh_control_mcp/http_wrapper.py`).

The Python code is shallowly embedded as executable Lean definitions:

* `is_destructive_command` — the command-risk classifier, including a
  matcher for the fragment of Python regular expressions actually used by
  `DESTRUCTIVE_PATTERNS` (word boundaries, literals, `.*`, `\s*`, `[rf]+`
  and a trailing alternation group).  Strings are treated at the ASCII
  fragment that the catalogue and the claims exercise.
* `SSHConnection` — the session object with its `connect`,
  `execute_command`, `disconnect` and `is_connected` methods.  The
  paramiko transport is abstracted by an `auth` oracle (deciding whether
  `SSHClient.connect` succeeds and which transport handle it yields) and a
  `RemoteExec` oracle (the remote side of `exec_command`); every
  externally visible transport action is recorded in an `Event` trace.
* `ssh_execute_tool` — the `ssh_execute` branch of `call_tool`, i.e. the
  confirmation gate, sudo auto-detection, sudo-password resolution and the
  call into `execute_command`.
-/

namespace SSHControl

/-! ## Python string helpers (ASCII fragment) -/

/-- Word characters of Python `\w` / `\b`, at the ASCII fragment:
letters, digits and the underscore. -/
def isWordChar (c : Char) : Bool :=
  c.isAlphanum || c = '_'

/-- Whitespace recognised by Python `str.strip` and `\s` (ASCII fragment). -/
def isPySpace (c : Char) : Bool :=
  c = ' ' || c = '\t' || c = '\n' || c = '\r' || c = '\x0b' || c = '\x0c'

/-- Python `str.strip()`: drop leading and trailing whitespace. -/
def pyStrip (s : List Char) : List Char :=
  ((s.dropWhile isPySpace).reverse.dropWhile isPySpace).reverse

/-- Python `str.startswith("sudo")` on the stripped command text. -/
def startsWithSudo (command : String) : Bool :=
  List.isPrefixOf "sudo".data (pyStrip command.data)

/-! ## The regex fragment used by DESTRUCTIVE_PATTERNS

Each Python pattern in the catalogue is a plain concatenation of:
a word boundary `\b`, literal characters, `.*`, `\s*`, a character
class with `+` (only `[rf]+` occurs), and at most one trailing
alternation group of literal words such as `(stop|disable|mask|restart)`.
`RItem` is exactly that item language; a compiled pattern is a list of
items, matched left to right. -/

inductive RItem where
  | wb
  | ch (c : Char)
  | dotStar
  | wsStar
  | clsPlus (cs : List Char)
  | altEnd (ws : List (List Char))
deriving DecidableEq

/-- Compile a literal piece of a pattern into single-character items. -/
def lit (w : String) : List RItem :=
  w.data.map RItem.ch

/-- Compile a trailing alternation group of literal words. -/
def alts (ws : List String) : RItem :=
  .altEnd (ws.map String.data)

/-- Python `\b`: true iff exactly one side of the current position is a
word character.  `prev` is the character before the position (if any),
`s` the remaining input. -/
def atBoundary (prev : Option Char) (s : List Char) : Bool :=
  (match prev with | some c => isWordChar c | none => false)
    != (match s with | c :: _ => isWordChar c | [] => false)

/-- Match a compiled pattern against a prefix of `s`, where `prev` is the
character immediately before `s` in the full subject (needed for `\b`).
The search is a backtracking existence check, which coincides with the
truthiness of `re.search` at a fixed start position.  `fuel` bounds the
recursion; every recursive call decreases `2 * s.length + items.length`,
so `matchesAt` below supplies enough fuel for the bound never to bite. -/
def matchItems : Nat → List RItem → Option Char → List Char → Bool
  | 0, _, _, _ => false
  | _ + 1, [], _, _ => true
  | fuel + 1, .wb :: rest, prev, s =>
    atBoundary prev s && matchItems fuel rest prev s
  | _ + 1, .ch _ :: _, _, [] => false
  | fuel + 1, .ch c :: rest, _, x :: s =>
    x == c && matchItems fuel rest (some x) s
  | fuel + 1, .dotStar :: rest, prev, s =>
    matchItems fuel rest prev s ||
      (match s with
       | [] => false
       | x :: xs => !(x == '\n') && matchItems fuel (.dotStar :: rest) (some x) xs)
  | fuel + 1, .wsStar :: rest, prev, s =>
    matchItems fuel rest prev s ||
      (match s with
       | [] => false
       | x :: xs => isPySpace x && matchItems fuel (.wsStar :: rest) (some x) xs)
  | _ + 1, .clsPlus _ :: _, _, [] => false
  | fuel + 1, .clsPlus cs :: rest, _, x :: s =>
    cs.contains x &&
      (matchItems fuel rest (some x) s || matchItems fuel (.clsPlus cs :: rest) (some x) s)
  | _ + 1, .altEnd ws :: _, _, s =>
    ws.any fun w => List.isPrefixOf w s

/-- Match a compiled pattern at one start position, with sufficient fuel. -/
def matchesAt (p : List RItem) (prev : Option Char) (s : List Char) : Bool :=
  matchItems (2 * s.length + p.length + 1) p prev s

/-- Try every start position, threading the previous character. -/
def reSearchAux (p : List RItem) : Option Char → List Char → Bool
  | prev, [] => matchesAt p prev []
  | prev, x :: xs => matchesAt p prev (x :: xs) || reSearchAux p (some x) xs

/-- Python `re.search(p, s) is not None` for the pattern fragment above. -/
def reSearch (p : List RItem) (s : List Char) : Bool :=
  reSearchAux p none s

/-! ## The destructive-command catalogue (`DESTRUCTIVE_PATTERNS`)

One entry per Python pattern, in source order; the original regex is
given as a comment.  Note that the `cryptsetup`, `pacman` and `iptables`
entries keep their upper-case letters exactly as in the source. -/

/-- A whole-word pattern such as the Python regex for dd. -/
def wordPat (w : String) : List RItem :=
  [.wb] ++ lit w ++ [.wb]

/-- A pattern of the shape word, gap, literal tail. -/
def wordTailPat (w tail : String) : List RItem :=
  [.wb] ++ lit w ++ [.wb, .dotStar] ++ lit tail

/-- A pattern of the shape word, gap, alternation of literal words. -/
def wordAltsPat (w : String) (ws : List String) : List RItem :=
  [.wb] ++ lit w ++ [.wb, .dotStar] ++ [alts ws]

/-- Pattern for rm with -r or -f flag combinations. -/
def patRmFlags : List RItem :=
  [.wb] ++ lit "rm" ++ [.wb, .dotStar] ++ lit "-" ++ [.clsPlus ['r', 'f']]

/-- Pattern for a :> truncation redirected at a path. -/
def patColonTruncate : List RItem :=
  [.wb] ++ lit ":>" ++ [.wsStar] ++ lit "/"

/-- Pattern for a redirection into a device node. -/
def patDevRedirect : List RItem :=
  [.wb] ++ lit ">" ++ [.wsStar] ++ lit "/dev/"

def DESTRUCTIVE_PATTERNS : List (List RItem) := [
  patRmFlags,                                               -- rm with -r or -f flags
  wordTailPat "rm" "/",                                     -- rm with directory paths
  wordPat "dd",                                             -- dd command
  wordPat "mkfs",                                           -- filesystem formatting
  wordPat "format",
  wordPat "fdisk",
  wordPat "parted",
  wordTailPat "cryptsetup" "luksFormat",
  patColonTruncate,                                         -- truncate files
  wordPat "shred",
  wordPat "wipefs",
  patDevRedirect,                                           -- redirect to devices
  wordTailPat "chmod" "777",                                -- overly permissive chmod
  wordPat "chown",                                          -- any chown
  wordTailPat "kill" "-9",                                  -- force kill
  wordPat "killall",
  wordPat "pkill",
  wordAltsPat "systemctl" ["stop", "disable", "mask", "restart"],
  wordAltsPat "service" ["stop", "disable", "restart"],
  wordAltsPat "apt-get" ["remove", "purge", "autoremove"],
  wordAltsPat "apt" ["remove", "purge", "autoremove"],
  wordAltsPat "yum" ["remove", "erase"],
  wordAltsPat "dnf" ["remove", "erase"],
  wordTailPat "pacman" "-R",
  wordTailPat "snap" "remove",
  wordAltsPat "docker" ["rm", "rmi", "system prune"],
  wordTailPat "iptables" "-F",                              -- flush firewall rules
  wordTailPat "ufw" "disable",
  wordTailPat "init" "0",                                   -- shutdown
  wordPat "shutdown",
  wordPat "reboot",
  wordPat "halt",
  wordPat "poweroff",
  wordPat "userdel",                                        -- delete user
  wordPat "usermod",                                        -- modify user
  wordPat "groupdel",                                       -- delete group
  wordTailPat "mv" "/",                                     -- move files/directories
  wordPat "truncate",
  wordTailPat "crontab" "-r"                                -- remove cron jobs
]

/-- The classifier `is_destructive_command`: lower-case the command,
strip it, and search every catalogue pattern. -/
def is_destructive_command (command : String) : Bool :=
  let command_lower := pyStrip (command.data.map Char.toLower)
  DESTRUCTIVE_PATTERNS.any fun pattern => reSearch pattern command_lower

example : is_destructive_command "rm -rf /var/x" = true := by decide
example : is_destructive_command "ls -la" = false := by decide
example : is_destructive_command "cryptsetup luksFormat /dev/sdb1" = false := by decide
example : is_destructive_command "pacman -R vim" = false := by decide
example : is_destructive_command "iptables -F" = false := by decide
example : is_destructive_command "systemctl restart nginx" = true := by decide
example : is_destructive_command "echo hi> /dev/sda" = true := by decide
example : is_destructive_command "a:> /x" = true := by decide
example : is_destructive_command "kill -9 42" = true := by decide
example : is_destructive_command "apt remove vim" = true := by decide
example : is_destructive_command "docker system prune" = true := by decide
example : is_destructive_command "crontab -r" = true := by decide
example : is_destructive_command "init 0" = true := by decide
example : is_destructive_command "sudo apt update" = false := by decide
example : is_destructive_command "whoami" = false := by decide
example : is_destructive_command "sudoedit /etc/hosts" = false := by decide
example : is_destructive_command "sudo ls" = false := by decide

/-! ## Host profiles and the session object

A host entry of `config.yaml` after the `.get` defaulting performed in
`SSHConnection.connect` (`port` 22, `username` root, password and
description optional).  `SSH_HOSTS` is passed to the operations as an
association list. -/

structure HostConfig where
  hostname : String
  port : Nat := 22
  username : String := "root"
  password : Option String := none
  description : String := ""
deriving DecidableEq

/-- The paramiko `SSHClient` object held in `self.client`: a fresh client
has no transport; a connected one holds an opaque transport handle. -/
structure ClientObj where
  transport : Option Nat
deriving DecidableEq

/-- The mutable fields of `SSHConnection` (`self.client`,
`self.hostname`, `self.host_alias`). -/
structure SSHConnection where
  client : Option ClientObj := none
  hostname : Option String := none
  host_alias : Option String := none
deriving DecidableEq

/-- Externally visible transport actions, recorded as a trace. -/
inductive Event where
  | transportOpen (hostname : String) (port : Nat) (username : String) (password : String) (handle : Nat)
  | transportClose (handle : Nat)
  | channelOpen (command : String) (get_pty : Bool) (timeout : Nat)
  | stdinWrite (data : String)
deriving DecidableEq

/-- Python `a or b` on optional strings, where the empty string is falsy. -/
def pyOrStr (a b : Option String) : Option String :=
  match a with
  | some s => if s = "" then b else some s
  | none => b

/-- Render an optional string the way a Python f-string renders it. -/
def optStr : Option String → String
  | some s => s
  | none => "None"

/-- The body of `SSHConnection.connect`.  `auth hostname port username
password` stands for `paramiko.SSHClient.connect` and decides whether
authentication succeeds, returning the new transport handle.  Mirrors the
source order: the alias is resolved, `self.host_alias` is set, a fresh
client object is assigned to `self.client`, then the password check and
the transport connect run, and only on success is `self.hostname` set. -/
def SSHConnection.connect (hosts : List (String × HostConfig))
    (auth : String → Nat → String → String → Except String Nat)
    (conn : SSHConnection) (host : String) :
    Except String String × SSHConnection × List Event :=
  let resolved :=
    match List.lookup host hosts with
    | some config =>
      (config.hostname, config.port, config.username, config.password, config.description,
        (some host : Option String))
    | none => (host, 22, "root", none, "", none)
  match resolved with
  | (hostname, port, username, password, description, host_alias) =>
    let conn : SSHConnection := { conn with host_alias := host_alias }
    let conn : SSHConnection := { conn with client := some { transport := none } }
    let passwordOk := match password with
      | some pw => if pw = "" then none else some pw
      | none => none
    match passwordOk with
    | none =>
      (.error ("SSH connection failed: No password found for host \x27" ++ host ++ "\x27 in config"),
        conn, [])
    | some pw =>
      match auth hostname port username pw with
      | .error e => (.error ("SSH connection failed: " ++ e), conn, [])
      | .ok handle =>
        let conn : SSHConnection :=
          { conn with client := some { transport := some handle }, hostname := some hostname }
        let msg := "Successfully connected to " ++ host ++
          (if description = "" then "" else " (" ++ description ++ ")")
        (.ok msg, conn, [Event.transportOpen hostname port username pw handle])

/-- The body of `SSHConnection.disconnect`. -/
def SSHConnection.disconnect (conn : SSHConnection) :
    String × SSHConnection × List Event :=
  match conn.client with
  | some c =>
    let hostname := pyOrStr conn.host_alias conn.hostname
    ("Disconnected from " ++ optStr hostname,
      { client := none, hostname := none, host_alias := none },
      match c.transport with
      | some t => [Event.transportClose t]
      | none => [])
  | none => ("No active connection", conn, [])

/-- The body of `SSHConnection.is_connected`. -/
def SSHConnection.is_connected (conn : SSHConnection) : Bool :=
  conn.client.isSome && conn.hostname.isSome

/-! ## Command execution -/

/-- What the remote side returns for one `exec_command` call: exit
status, and the decoded stdout and stderr texts. -/
structure RemoteResult where
  exit_code : Int
  stdout : String
  stderr : String
deriving DecidableEq

/-- An oracle standing for the remote host: given the issued command line
and the `get_pty` flag, it yields the remote result. -/
def RemoteExec : Type := String → Bool → RemoteResult

/-- The result dictionary built by `execute_command`. -/
structure ExecResult where
  hostname : String
  command : String
  exit_code : Int
  stdout : String
  stderr : String
  success : Bool
  used_sudo : Bool
deriving DecidableEq

/-- Substring test, Python `needle in hay`. -/
def listContainsSub : List Char → List Char → Bool
  | needle, [] => needle.isEmpty
  | needle, x :: t => List.isPrefixOf needle (x :: t) || listContainsSub needle t

/-- Python `str.split(chr(10))`: split into lines at newline characters. -/
def splitLines : List Char → List Char → List (List Char)
  | acc, [] => [acc.reverse]
  | acc, c :: t =>
    if c = '\n' then acc.reverse :: splitLines [] t else splitLines (c :: acc) t

/-- Python `chr(10).join(lines)`. -/
def joinLines : List (List Char) → List Char
  | [] => []
  | [l] => l
  | l :: ls => l ++ '\n' :: joinLines ls

/-- The sudo prompt marker removed from stdout by `execute_command`. -/
def sudoMarker : List Char := "[sudo]".data

/-- Drop every stdout line containing the sudo prompt marker. -/
def stripSudoPromptLines (out : String) : String :=
  ⟨joinLines ((splitLines [] out.data).filter fun line => !listContainsSub sudoMarker line)⟩

/-- The command line actually issued when sudo is in effect: left alone
if the stripped text already starts with sudo, otherwise wrapped. -/
def sudoCommand (command : String) : String :=
  if startsWithSudo command then command else "sudo -S " ++ command

/-- The write of the sudo password into the channel input, as guarded in
the source by `use_sudo and sudo_password` (Python truthiness: an empty
password is not written). -/
def sudoPasswordWrites (use_sudo : Bool) (sudo_password : Option String) : List Event :=
  match sudo_password with
  | some pw => if use_sudo && !(pw = "") then [Event.stdinWrite (pw ++ "\n")] else []
  | none => []

/-- The body of `SSHConnection.execute_command`.  The not-connected check
mirrors the Python truthiness test on `self.client` and `self.hostname`
(an empty hostname string is falsy).  The trace records the channel open
with its command line, pty flag and 30 second timeout, and the password
write to the channel input when one is supplied. -/
def SSHConnection.execute_command (conn : SSHConnection) (remote : RemoteExec)
    (command : String) (use_sudo : Bool) (sudo_password : Option String) :
    Except String ExecResult × List Event :=
  match conn.client, conn.hostname with
  | some _, some hostname =>
    if hostname = "" then
      (.error "Not connected to any host. Please connect first.", [])
    else
      let exec_command := if use_sudo then sudoCommand command else command
      let passwordWrites := sudoPasswordWrites use_sudo sudo_password
      let r := remote exec_command use_sudo
      let stdout_text :=
        if use_sudo && listContainsSub sudoMarker r.stdout.data then
          stripSudoPromptLines r.stdout
        else r.stdout
      (.ok { hostname := hostname, command := command, exit_code := r.exit_code,
             stdout := stdout_text, stderr := r.stderr,
             success := r.exit_code == 0, used_sudo := use_sudo },
        Event.channelOpen exec_command use_sudo 30 :: passwordWrites)
  | _, _ => (.error "Not connected to any host. Please connect first.", [])

/-! ## The ssh_execute tool branch of call_tool -/

/-- The warning text returned for an unconfirmed destructive command. -/
def destructiveWarning (command : String) : String :=
  "⚠️  WARNING: DESTRUCTIVE COMMAND DETECTED\n\n"
    ++ ("Command: " ++ command ++ "\n\n")
    ++ "This command could:\n"
    ++ "• Delete files or directories\n"
    ++ "• Modify system configuration\n"
    ++ "• Stop or restart services\n"
    ++ "• Reboot/shutdown the system\n"
    ++ "• Remove packages or users\n"
    ++ "• Change permissions or ownership\n\n"
    ++ "❌ CONFIRMATION REQUIRED\n\n"
    ++ "To execute this command, you MUST confirm by:\n"
    ++ "Setting \x27confirmed: true\x27 in the tool parameters\n\n"
    ++ "⚠️  Please review the command carefully before confirming!"

/-- Resolution of the sudo password in `call_tool`: only when sudo is in
effect, only through the alias of the active session (Python truthiness:
an empty alias resolves nothing), and only from the host table. -/
def resolveSudoPassword (hosts : List (String × HostConfig))
    (host_alias : Option String) (use_sudo : Bool) : Option String :=
  match use_sudo, host_alias with
  | true, some a =>
    if a = "" then none
    else
      match List.lookup a hosts with
      | some config => config.password
      | none => none
  | _, _ => none

/-- Outcome of the ssh_execute tool call, before rendering to text:
the missing-command error, the refusal warning, a completed execution,
or a caught exception rendered as an error message. -/
inductive ToolOutcome where
  | missingCommand
  | refusal (warning : String)
  | executed (r : ExecResult)
  | errorMsg (msg : String)
deriving DecidableEq

/-- The `ssh_execute` branch of `call_tool`: missing-command check, sudo
auto-detection on the stripped command text, the destructive gate, sudo
password resolution, and the call into `execute_command`.  The session
object is returned unchanged (the branch never assigns to it); the trace
is whatever `execute_command` produced. -/
def ssh_execute_tool (hosts : List (String × HostConfig)) (conn : SSHConnection)
    (remote : RemoteExec) (command : String) (confirmed : Bool) (use_sudo : Bool) :
    ToolOutcome × SSHConnection × List Event :=
  if command = "" then (.missingCommand, conn, [])
  else
    let use_sudo := if startsWithSudo command then true else use_sudo
    if is_destructive_command command && !confirmed then
      (.refusal (destructiveWarning command), conn, [])
    else
      let sudo_password := resolveSudoPassword hosts conn.host_alias use_sudo
      match conn.execute_command remote command use_sudo sudo_password with
      | (.ok r, events) => (.executed r, conn, events)
      | (.error e, events) => (.errorMsg ("Error: " ++ e), conn, events)

/-! ## Shared concrete fixtures for witnesses and counterexamples -/

/-- A fresh, disconnected session. -/
def conn0 : SSHConnection := {}

/-- A trivial remote oracle: every command exits 0 with empty output. -/
def remote0 : RemoteExec := fun _ _ => ⟨0, "", ""⟩

/-! ## Helper lemmas -/

/-- The refusal warning text echoes the offending command. -/
theorem destructiveWarning_echo (command : String) :
    command.data <:+: (destructiveWarning command).data := by
  have h1 : command.data <:+: ("Command: " ++ command ++ "\n\n").data := by
    simp only [String.data_append]
    exact ⟨"Command: ".data, "\n\n".data, rfl⟩
  have h2 : ("Command: " ++ command ++ "\n\n").data <:+: (destructiveWarning command).data := by
    refine ⟨("⚠️  WARNING: DESTRUCTIVE COMMAND DETECTED\n\n").data,
      ("This command could:\n"
        ++ "• Delete files or directories\n"
        ++ "• Modify system configuration\n"
        ++ "• Stop or restart services\n"
        ++ "• Reboot/shutdown the system\n"
        ++ "• Remove packages or users\n"
        ++ "• Change permissions or ownership\n\n"
        ++ "❌ CONFIRMATION REQUIRED\n\n"
        ++ "To execute this command, you MUST confirm by:\n"
        ++ "Setting \x27confirmed: true\x27 in the tool parameters\n\n"
        ++ "⚠️  Please review the command carefully before confirming!").data, ?_⟩
    simp only [destructiveWarning, String.data_append, List.append_assoc]
  exact h1.trans h2

/-- The empty command is not classified destructive. -/
theorem is_destructive_empty : is_destructive_command "" = false := by decide

/-! ## Claims -/

/-- C1: for every command classified destructive and every execute call
with confirmed false, the tool returns the refusal (whose warning echoes
the command and instructs resubmission with confirmed true), the session
state is untouched, and the trace is empty: no channel is opened and the
connection is never accessed. -/
theorem C1_refusal_no_transport (hosts : List (String × HostConfig)) (conn : SSHConnection)
    (remote : RemoteExec) (command : String) (use_sudo : Bool)
    (hdes : is_destructive_command command = true) :
    ssh_execute_tool hosts conn remote command false use_sudo
        = (.refusal (destructiveWarning command), conn, [])
      ∧ command.data <:+: (destructiveWarning command).data := by
  have hne : command ≠ "" := by
    intro h
    rw [h, is_destructive_empty] at hdes
    exact Bool.false_ne_true hdes
  refine ⟨?_, destructiveWarning_echo command⟩
  simp [ssh_execute_tool, hne, hdes]

/-- Witness for C1 at the concrete destructive command rm -rf /var/x. -/
theorem C1_refusal_no_transport_witness :
    is_destructive_command "rm -rf /var/x" = true ∧
    (ssh_execute_tool [] conn0 remote0 "rm -rf /var/x" false false
        = (.refusal (destructiveWarning "rm -rf /var/x"), conn0, [])
      ∧ ("rm -rf /var/x" : String).data <:+: (destructiveWarning "rm -rf /var/x").data) :=
  ⟨by decide, C1_refusal_no_transport [] conn0 remote0 "rm -rf /var/x" false (by decide)⟩

/-- C2 (code bug): the five listed destructive examples are classified
destructive, classification is insensitive to letter case of the input,
but the disk-encryption formatting command cryptsetup luksFormat is NOT
classified destructive: the catalogue entry for it spells luksFormat with
an upper-case letter while the subject is lower-cased first, so that
pattern can never fire. -/
theorem C2_catalogue_and_dead_cryptsetup_pattern :
    is_destructive_command "rm -rf /var/x" = true
    ∧ is_destructive_command "dd if=/dev/zero of=/dev/sda" = true
    ∧ is_destructive_command "shutdown now" = true
    ∧ is_destructive_command "userdel bob" = true
    ∧ is_destructive_command "mv /etc/foo /tmp/" = true
    ∧ is_destructive_command "RM -RF /VAR/X" = true
    ∧ is_destructive_command "ShUtDoWn NOW" = true
    ∧ is_destructive_command "cryptsetup luksFormat /dev/sdb1" = false
    ∧ is_destructive_command "CRYPTSETUP LUKSFORMAT /DEV/SDB1" = false := by
  refine ⟨?_, ?_, ?_, ?_, ?_, ?_, ?_, ?_, ?_⟩ <;> decide

/-- C5: a command whose stripped text starts with sudo forces use_sudo
to true: the call behaves exactly as if the caller had passed true,
whatever flag was actually supplied. -/
theorem C5_sudo_autodetect (hosts : List (String × HostConfig)) (conn : SSHConnection)
    (remote : RemoteExec) (command : String) (confirmed use_sudo : Bool)
    (h : startsWithSudo command = true) :
    ssh_execute_tool hosts conn remote command confirmed use_sudo
      = ssh_execute_tool hosts conn remote command confirmed true := by
  simp [ssh_execute_tool, h]

/-- Witness for C5: sudo ls with use_sudo false behaves as with true. -/
theorem C5_sudo_autodetect_witness :
    startsWithSudo "sudo ls" = true ∧
    ssh_execute_tool [] conn0 remote0 "sudo ls" false false
      = ssh_execute_tool [] conn0 remote0 "sudo ls" false true :=
  ⟨by decide, C5_sudo_autodetect [] conn0 remote0 "sudo ls" false false (by decide)⟩

/-- C9: the four clearly benign sample commands are classified safe. -/
theorem C9_benign_commands :
    is_destructive_command "ls -la" = false
    ∧ is_destructive_command "df -h" = false
    ∧ is_destructive_command "uptime" = false
    ∧ is_destructive_command "echo hi" = false := by
  refine ⟨?_, ?_, ?_, ?_⟩ <;> decide

/-! ## Connect, disconnect and sudo-password claims -/

/-- An authentication oracle for runs that must fail before reaching the
transport: it rejects every attempt. -/
def auth0 : String → Nat → String → String → Except String Nat :=
  fun _ _ _ _ => .error "unreachable"

/-- Session invariant of the spec data model: hostname and the connection
handle are both present or both absent. -/
def sessionInv (conn : SSHConnection) : Bool :=
  conn.hostname.isSome == conn.client.isSome

/-- On a connected session, `execute_command` opens one channel and
returns the result dictionary; the trace and the relevant result fields
are as stated. -/
theorem execute_command_ok (conn : SSHConnection) (remote : RemoteExec)
    (command : String) (use_sudo : Bool) (sudo_password : Option String)
    (c : ClientObj) (hn : String)
    (hc : conn.client = some c) (hh : conn.hostname = some hn) (hne : hn ≠ "") :
    ∃ r : ExecResult,
      conn.execute_command remote command use_sudo sudo_password
          = (.ok r,
             Event.channelOpen (if use_sudo then sudoCommand command else command) use_sudo 30
               :: sudoPasswordWrites use_sudo sudo_password)
        ∧ r.used_sudo = use_sudo ∧ r.command = command ∧ r.hostname = hn := by
  unfold SSHConnection.execute_command
  rw [hc, hh]
  dsimp only
  rw [if_neg hne]
  exact ⟨_, rfl, rfl, rfl, rfl⟩

/-- C7: when the resolved profile carries no non-empty password — in
particular whenever the argument is not a known alias, since the literal
hostname fallback has no password — connect fails with the no-credential
error and the trace stays empty: no transport is opened. -/
theorem C7_no_credential_fails (hosts : List (String × HostConfig))
    (auth : String → Nat → String → String → Except String Nat)
    (conn : SSHConnection) (host : String)
    (h : ∀ config, List.lookup host hosts = some config →
         config.password = none ∨ config.password = some "") :
    (SSHConnection.connect hosts auth conn host).1
        = .error ("SSH connection failed: No password found for host \x27" ++ host ++ "\x27 in config")
      ∧ (SSHConnection.connect hosts auth conn host).2.2 = [] := by
  unfold SSHConnection.connect
  cases hl : List.lookup host hosts with
  | none => exact ⟨rfl, rfl⟩
  | some config =>
    rcases h config hl with hp | hp <;> simp [hp]

/-- Witness for C7: connecting to an unknown host with an empty table. -/
theorem C7_no_credential_fails_witness :
    (∀ config, List.lookup "ghost" ([] : List (String × HostConfig)) = some config →
      config.password = none ∨ config.password = some "")
    ∧ ((SSHConnection.connect [] auth0 conn0 "ghost").1
          = .error "SSH connection failed: No password found for host \x27ghost\x27 in config"
        ∧ (SSHConnection.connect [] auth0 conn0 "ghost").2.2 = []) :=
  ⟨fun _ h => (nomatch h), C7_no_credential_fails [] auth0 conn0 "ghost" (fun _ h => (nomatch h))⟩

/-- C8: disconnect on a connected session closes the transport, resets
every session field and names the disconnected host (the alias when one
is recorded, the hostname otherwise); a second disconnect is a no-op
returning the no-active-connection message, and neither call can throw
(both are total functions in the model, as in the source). -/
theorem C8_disconnect_idempotent (conn : SSHConnection) (t : Nat) (hn : String)
    (hc : conn.client = some ⟨some t⟩) (hh : conn.hostname = some hn) :
    SSHConnection.disconnect conn
        = ("Disconnected from " ++ optStr (pyOrStr conn.host_alias (some hn)),
           conn0, [Event.transportClose t])
      ∧ SSHConnection.disconnect conn0 = ("No active connection", conn0, []) := by
  constructor
  · unfold SSHConnection.disconnect
    rw [hc, hh]
    rfl
  · rfl

/-- Witness for C8 on a session connected to vm1. -/
theorem C8_disconnect_idempotent_witness :
    (({ client := some ⟨some 7⟩, hostname := some "10.0.0.5", host_alias := some "vm1" }
        : SSHConnection).client = some ⟨some 7⟩)
    ∧ (SSHConnection.disconnect
          { client := some ⟨some 7⟩, hostname := some "10.0.0.5", host_alias := some "vm1" }
          = ("Disconnected from "
              ++ optStr (pyOrStr (some "vm1") (some "10.0.0.5")), conn0, [Event.transportClose 7])
        ∧ SSHConnection.disconnect conn0 = ("No active connection", conn0, [])) :=
  ⟨rfl, C8_disconnect_idempotent
    { client := some ⟨some 7⟩, hostname := some "10.0.0.5", host_alias := some "vm1" }
    7 "10.0.0.5" rfl rfl⟩

/-- Profile of vm1 in the concrete scenarios. -/
def cfgVm1 : HostConfig :=
  { hostname := "10.0.0.5", username := "admin", password := some "s3cret" }

/-- Profile of vm2 in the concrete scenarios. -/
def cfgVm2 : HostConfig :=
  { hostname := "10.0.0.6", username := "admin", password := some "pw2" }

/-- Host table for the concrete scenarios. -/
def hostsC3 : List (String × HostConfig) :=
  [("vm1", cfgVm1), ("vm2", cfgVm2)]

/-- An authentication oracle that always succeeds with transport 8. -/
def authC3 : String → Nat → String → String → Except String Nat :=
  fun _ _ _ _ => .ok 8

/-- A session already connected to vm1 over transport 7. -/
def connC3 : SSHConnection :=
  { client := some ⟨some 7⟩, hostname := some "10.0.0.5", host_alias := some "vm1" }

/-- C3 (code bug): connecting to vm2 while connected to vm1 replaces the
client with a new transport, yet the trace contains no close of the prior
transport 7 — the old handle is leaked, contrary to the close-before-
replace behaviour the spec requires. -/
theorem C3_reconnect_leaks_prior_transport :
    connC3.is_connected = true
    ∧ (SSHConnection.connect hostsC3 authC3 connC3 "vm2").2.2
        = [Event.transportOpen "10.0.0.6" 22 "admin" "pw2" 8]
    ∧ ((SSHConnection.connect hostsC3 authC3 connC3 "vm2").2.1).client = some ⟨some 8⟩
    ∧ Event.transportClose 7 ∉ (SSHConnection.connect hostsC3 authC3 connC3 "vm2").2.2 := by
  refine ⟨rfl, rfl, rfl, ?_⟩
  decide

/-- C4 counterexample: a failed connect on a fresh session (unknown
host, hence no credential) leaves the client object assigned while the
hostname stays absent, so the both-present-or-both-absent invariant does
not survive a failing connect. -/
theorem C4_invariant_broken_by_failed_connect :
    sessionInv conn0 = true
    ∧ (SSHConnection.connect [] auth0 conn0 "ghost").1
        = .error "SSH connection failed: No password found for host \x27ghost\x27 in config"
    ∧ sessionInv ((SSHConnection.connect [] auth0 conn0 "ghost").2.1) = false
    ∧ ((SSHConnection.connect [] auth0 conn0 "ghost").2.1).client = some ⟨none⟩
    ∧ ((SSHConnection.connect [] auth0 conn0 "ghost").2.1).hostname = none :=
  ⟨rfl, rfl, rfl, rfl, rfl⟩

/-- C4 amended: successful connect establishes the invariant, disconnect
preserves it, and execute never touches the session; but a failed connect
leaves the client object assigned (with no transport) while the hostname
keeps its prior value, so on a fresh session the invariant is broken. -/
theorem C4_amended_invariant :
    (∀ hosts auth conn host msg conn2 evs,
        SSHConnection.connect hosts auth conn host = (.ok msg, conn2, evs) →
        sessionInv conn2 = true)
    ∧ (∀ conn : SSHConnection, sessionInv conn = true →
        sessionInv (SSHConnection.disconnect conn).2.1 = true)
    ∧ (∀ hosts conn remote command confirmed use_sudo,
        (ssh_execute_tool hosts conn remote command confirmed use_sudo).2.1 = conn)
    ∧ (∀ hosts auth conn host e conn2 evs,
        SSHConnection.connect hosts auth conn host = (.error e, conn2, evs) →
        conn2.client = some ⟨none⟩ ∧ conn2.hostname = conn.hostname) := by
  refine ⟨?_, ?_, ?_, ?_⟩
  · intro hosts auth conn host msg conn2 evs h
    unfold SSHConnection.connect at h
    cases hl : List.lookup host hosts <;> rw [hl] at h <;> dsimp only at h
    case none => simp at h
    case some config =>
      split at h
      · simp at h
      · split at h
        · simp at h
        · injection h with h1 h23
          injection h23 with h2 h3
          subst h2
          rfl
  · intro conn h
    unfold SSHConnection.disconnect
    cases hc : conn.client with
    | some c => rfl
    | none => simpa [hc] using h
  · intro hosts conn remote command confirmed use_sudo
    unfold ssh_execute_tool
    split
    · rfl
    · dsimp only
      split
      · rfl
      · split <;> rfl
  · intro hosts auth conn host e conn2 evs h
    unfold SSHConnection.connect at h
    cases hl : List.lookup host hosts <;> rw [hl] at h <;> dsimp only at h
    case none =>
      injection h with h1 h23
      injection h23 with h2 h3
      subst h2
      exact ⟨rfl, rfl⟩
    case some config =>
      split at h
      · injection h with h1 h23
        injection h23 with h2 h3
        subst h2
        exact ⟨rfl, rfl⟩
      · split at h
        · injection h with h1 h23
          injection h23 with h2 h3
          subst h2
          exact ⟨rfl, rfl⟩
        · simp at h

/-- Witness for C4 amended, exercising the failed-connect conjunct on a
fresh session and an unknown host. -/
theorem C4_amended_invariant_witness :
    SSHConnection.connect [] auth0 conn0 "ghost"
        = (.error "SSH connection failed: No password found for host \x27ghost\x27 in config",
           { client := some ⟨none⟩, hostname := none, host_alias := none }, [])
    ∧ (({ client := some ⟨none⟩, hostname := none, host_alias := none } : SSHConnection).client
          = some ⟨none⟩
        ∧ ({ client := some ⟨none⟩, hostname := none, host_alias := none } : SSHConnection).hostname
          = conn0.hostname) :=
  ⟨rfl, C4_amended_invariant.2.2.2 [] auth0 conn0 "ghost" _ _ _ rfl⟩

/-- C6: on an escalated call the secret written to the channel input is
exactly what `resolveSudoPassword` yields from the host table and the
active alias — a function of the session, never of the request — and
when the session has no alias or the profile stores no usable secret no
write happens at all, while the call still completes as a normal
execution rather than a distinct error. -/
theorem C6_sudo_secret_from_profile (hosts : List (String × HostConfig)) (conn : SSHConnection)
    (remote : RemoteExec) (command : String) (confirmed : Bool) (c : ClientObj) (hn : String)
    (hc : conn.client = some c) (hh : conn.hostname = some hn) (hne : hn ≠ "")
    (hgate : (is_destructive_command command && !confirmed) = false)
    (hcmd : command ≠ "") :
    (∃ r : ExecResult,
        ssh_execute_tool hosts conn remote command confirmed true
            = (.executed r, conn,
               Event.channelOpen (sudoCommand command) true 30
                 :: sudoPasswordWrites true (resolveSudoPassword hosts conn.host_alias true))
          ∧ r.used_sudo = true)
      ∧ (resolveSudoPassword hosts conn.host_alias true = none
          ∨ resolveSudoPassword hosts conn.host_alias true = some "" →
         sudoPasswordWrites true (resolveSudoPassword hosts conn.host_alias true) = []) := by
  constructor
  · obtain ⟨r, hr, hu, -, -⟩ :=
      execute_command_ok conn remote command true
        (resolveSudoPassword hosts conn.host_alias true) c hn hc hh hne
    refine ⟨r, ?_, hu⟩
    unfold ssh_execute_tool
    rw [if_neg hcmd]
    simp only [ite_self, hgate, Bool.false_eq_true, if_false]
    rw [hr]
    rfl
  · rintro (h | h) <;> simp [h, sudoPasswordWrites]

/-- A session connected to a literal hostname, with no alias recorded. -/
def connNoAlias : SSHConnection :=
  { client := some ⟨some 5⟩, hostname := some "10.0.0.9", host_alias := none }

/-- Witness for C6: an escalated benign command on a session connected
to a literal hostname (no alias), so no secret exists and none is
written, yet the call completes. -/
theorem C6_sudo_secret_from_profile_witness :
    connNoAlias.client = some ⟨some 5⟩
    ∧ ((∃ r : ExecResult,
          ssh_execute_tool [] connNoAlias remote0 "whoami" false true
              = (.executed r, connNoAlias,
                 Event.channelOpen (sudoCommand "whoami") true 30
                   :: sudoPasswordWrites true (resolveSudoPassword [] connNoAlias.host_alias true))
            ∧ r.used_sudo = true)
        ∧ (resolveSudoPassword [] connNoAlias.host_alias true = none
            ∨ resolveSudoPassword [] connNoAlias.host_alias true = some "" →
           sudoPasswordWrites true (resolveSudoPassword [] connNoAlias.host_alias true) = [])) :=
  ⟨rfl, C6_sudo_secret_from_profile [] connNoAlias remote0 "whoami" false ⟨some 5⟩ "10.0.0.9"
    rfl rfl (by decide) (by decide) (by decide)⟩

/-- C10: the escalation auto-detection is a raw four-character test on
the stripped text, so a call whose command merely begins with the
characters of sudo — with the caller passing use_sudo false — is
promoted: the command line goes out unmodified on a pty channel and the
resolved secret is written to its input. -/
theorem C10_raw_sudo_promotion (hosts : List (String × HostConfig)) (conn : SSHConnection)
    (remote : RemoteExec) (command : String) (confirmed : Bool) (c : ClientObj) (hn : String)
    (a : String) (config : HostConfig) (pw : String)
    (hsudo : startsWithSudo command = true)
    (hc : conn.client = some c) (hh : conn.hostname = some hn) (hne : hn ≠ "")
    (hgate : (is_destructive_command command && !confirmed) = false)
    (hcmd : command ≠ "")
    (ha : conn.host_alias = some a) (hane : a ≠ "")
    (hlk : List.lookup a hosts = some config) (hpw : config.password = some pw)
    (hpwne : pw ≠ "") :
    ∃ r : ExecResult,
      ssh_execute_tool hosts conn remote command confirmed false
          = (.executed r, conn,
             [Event.channelOpen command true 30, Event.stdinWrite (pw ++ "\n")])
        ∧ r.used_sudo = true ∧ r.command = command := by
  have halias : resolveSudoPassword hosts (some a) true
      = match List.lookup a hosts with
        | some config => config.password
        | none => none := by
    exact if_neg hane
  have hres : resolveSudoPassword hosts conn.host_alias true = some pw := by
    rw [ha, halias, hlk]
    exact hpw
  have hwrap : sudoCommand command = command := by
    unfold sudoCommand
    rw [if_pos hsudo]
  obtain ⟨r, hr, hu, hcm, -⟩ :=
    execute_command_ok conn remote command true (resolveSudoPassword hosts conn.host_alias true)
      c hn hc hh hne
  refine ⟨r, ?_, hu, hcm⟩
  unfold ssh_execute_tool
  rw [if_neg hcmd]
  simp only [if_pos hsudo, hgate, Bool.false_eq_true, if_false]
  rw [hr, hres, hwrap]
  simp [sudoPasswordWrites, hpwne]

/-- Witness for C10 on the command sudoedit, which is not the word sudo
yet is promoted, issued verbatim on a pty, and fed the stored secret. -/
theorem C10_raw_sudo_promotion_witness :
    startsWithSudo "sudoedit /etc/hosts" = true
    ∧ ∃ r : ExecResult,
        ssh_execute_tool hostsC3 connC3 remote0 "sudoedit /etc/hosts" false false
            = (.executed r, connC3,
               [Event.channelOpen "sudoedit /etc/hosts" true 30, Event.stdinWrite "s3cret\n"])
          ∧ r.used_sudo = true ∧ r.command = "sudoedit /etc/hosts" :=
  ⟨by decide, C10_raw_sudo_promotion hostsC3 connC3 remote0 "sudoedit /etc/hosts" false
    ⟨some 7⟩ "10.0.0.5" "vm1" cfgVm1 "s3cret"
    (by decide) rfl rfl (by decide) (by decide) (by decide) rfl (by decide) rfl rfl (by decide)⟩

end SSHControl
